import Mathlib

/-!
Shallow embedding of the DebateMate session orchestration core:
the phase state machine of a debate session, the per-speaker and
per-session countdown timers, the speaker-update primitive, the
final-ranking aggregation, and the session collection manager.
Definitions are translated from `src/constants.ts` (types and service
functions), the dashboard/recorder components, and `src/App.tsx`.
-/

namespace DebateMate

/-- The four teams of a British Parliamentary debate (`Team` enum). -/
inductive Team where
  | OG | OO | CG | CO
deriving DecidableEq, Repr

/-- The eight speaker roles (`SpeakerRole` enum). -/
inductive SpeakerRole where
  | PM | LO | DPM | DLO | MG | MO | GW | OW
deriving DecidableEq, Repr

/-- The four session phases (`phase: 'setup' | 'prep' | 'debate' | 'results'`). -/
inductive Phase where
  | setup | prep | debate | results
deriving DecidableEq, Repr

/-- One of the 8 speaker slots (`Speaker` interface). The audio blob is
opaque to the core; it is modelled as a numeric handle. Scores are
integers here (the claims only use integer scores); `none` means the
optional field is absent. -/
structure Speaker where
  id : String
  role : SpeakerRole
  team : Team
  name : String
  isCompleted : Bool
  audioBlob : Option Nat
  transcription : Option String
  score : Option Int
  feedback : Option String
  speechTimeLeft : Int
  isSpeechTimerRunning : Bool
deriving DecidableEq, Repr

/-- Result row for one team (`TeamResult` interface). -/
structure TeamResult where
  team : Team
  rank : Int
  totalScore : Int
  reasoning : String
deriving DecidableEq, Repr

/-- Externally derived context for a motion (`MotionContext` interface). -/
structure MotionContext where
  detectedLanguage : String
  specificCriteria : List String
  backgroundInfo : String
deriving DecidableEq, Repr

/-- One debate session (`DebateSession` interface). -/
structure DebateSession where
  id : String
  title : String
  createdAt : Int
  topic : String
  motionContext : Option MotionContext
  isPrepTime : Bool
  prepTimeLeft : Int
  speakers : List Speaker
  isAdjudicating : Bool
  finalRankings : Option (List TeamResult)
  overallAdjudication : Option String
  phase : Phase
deriving DecidableEq, Repr

/-- `SPEECH_TIME_SECONDS = 7 * 60 + 20` from `constants.ts`. -/
def SPEECH_TIME_SECONDS : Int := 7 * 60 + 20

/-- `PREP_TIME_SECONDS = 15 * 60` from `constants.ts`. -/
def PREP_TIME_SECONDS : Int := 15 * 60

/-- A fresh speaker slot of the canonical roster (`INITIAL_SPEAKERS` rows). -/
def mkInitialSpeaker (id : String) (role : SpeakerRole) (team : Team) : Speaker :=
  { id := id, role := role, team := team, name := "", isCompleted := false,
    audioBlob := none, transcription := none, score := none, feedback := none,
    speechTimeLeft := SPEECH_TIME_SECONDS, isSpeechTimerRunning := false }

/-- The canonical 8-entry roster template (`INITIAL_SPEAKERS`). -/
def INITIAL_SPEAKERS : List Speaker :=
  [ mkInitialSpeaker "1" .PM  .OG,
    mkInitialSpeaker "2" .LO  .OO,
    mkInitialSpeaker "3" .DPM .OG,
    mkInitialSpeaker "4" .DLO .OO,
    mkInitialSpeaker "5" .MG  .CG,
    mkInitialSpeaker "6" .MO  .CO,
    mkInitialSpeaker "7" .GW  .CG,
    mkInitialSpeaker "8" .OW  .CO ]

/-- A field-by-field optional update on a speaker, embedding the
`Partial<Speaker>` argument of `onUpdateSpeaker`: a `some` entry means
the field key is present in the update object and overwrites the
speaker's field on merge. -/
structure SpeakerUpdate where
  id : Option String := none
  role : Option SpeakerRole := none
  team : Option Team := none
  name : Option String := none
  isCompleted : Option Bool := none
  audioBlob : Option Nat := none
  transcription : Option String := none
  score : Option Int := none
  feedback : Option String := none
  speechTimeLeft : Option Int := none
  isSpeechTimerRunning : Option Bool := none
deriving DecidableEq, Repr

/-- The spread merge `{ ...s, ...updates }` used by `handleUpdateSpeaker`. -/
def mergeSpeaker (s : Speaker) (u : SpeakerUpdate) : Speaker :=
  { id := u.id.getD s.id,
    role := u.role.getD s.role,
    team := u.team.getD s.team,
    name := u.name.getD s.name,
    isCompleted := u.isCompleted.getD s.isCompleted,
    audioBlob := match u.audioBlob with | some b => some b | none => s.audioBlob,
    transcription := match u.transcription with | some t => some t | none => s.transcription,
    score := match u.score with | some v => some v | none => s.score,
    feedback := match u.feedback with | some f => some f | none => s.feedback,
    speechTimeLeft := u.speechTimeLeft.getD s.speechTimeLeft,
    isSpeechTimerRunning := u.isSpeechTimerRunning.getD s.isSpeechTimerRunning }

/-- `handleUpdateSpeaker` from the dashboard:
`session.speakers.map(s => s.id === id ? { ...s, ...updates } : s)`. -/
def handleUpdateSpeaker (sn : DebateSession) (sid : String) (u : SpeakerUpdate) :
    DebateSession :=
  { sn with speakers := sn.speakers.map (fun s => if s.id = sid then mergeSpeaker s u else s) }

/-- The update object built by one speech-timer tick in the recorder:
`{ speechTimeLeft: speaker.speechTimeLeft - 1 }`. -/
def tickUpdate (s : Speaker) : SpeakerUpdate :=
  { speechTimeLeft := some (s.speechTimeLeft - 1) }

/-- The update object built by `toggleSpeechTimer`:
`{ isSpeechTimerRunning: !speaker.isSpeechTimerRunning }`. -/
def toggleUpdate (s : Speaker) : SpeakerUpdate :=
  { isSpeechTimerRunning := some (!s.isSpeechTimerRunning) }

/-- The update object built by `resetSpeechTimer`:
`{ isSpeechTimerRunning: false, speechTimeLeft: SPEECH_TIME_SECONDS }`. -/
def resetUpdate : SpeakerUpdate :=
  { isSpeechTimerRunning := some false, speechTimeLeft := some SPEECH_TIME_SECONDS }

/-- The update object built by `processAudio` on a successful evaluation:
`{ isCompleted: true, transcription, score, feedback, audioBlob }`. -/
def completeUpdate (tr : String) (sc : Int) (fb : String) (blob : Nat) : SpeakerUpdate :=
  { isCompleted := some true, transcription := some tr, score := some sc,
    feedback := some fb, audioBlob := some blob }

/-- The updates the program actually passes to the update primitive: the
recorder's four call sites of `onUpdateSpeaker` (speech-timer tick,
timer toggle, timer reset, evaluation completion). -/
def ProgramSpeakerUpdate (u : SpeakerUpdate) : Prop :=
  (∃ s, u = tickUpdate s) ∨ (∃ s, u = toggleUpdate s) ∨ u = resetUpdate ∨
  (∃ tr sc fb blob, u = completeUpdate tr sc fb blob)

/-- One firing of the recorder's speech-timer interval: the effect
installs the interval only when `isSpeechTimerRunning && speechTimeLeft > 0`,
and each firing merges `tickUpdate`. -/
def speechTick (s : Speaker) : Speaker :=
  if s.isSpeechTimerRunning = true ∧ 0 < s.speechTimeLeft then
    mergeSpeaker s (tickUpdate s)
  else s

/-- `toggleSpeechTimer` applied to the speaker itself. -/
def toggleSpeechTimer (s : Speaker) : Speaker :=
  mergeSpeaker s (toggleUpdate s)

/-- `resetSpeechTimer` applied to the speaker itself. -/
def resetSpeechTimer (s : Speaker) : Speaker :=
  mergeSpeaker s resetUpdate

/-- The operations the recorder performs on one speaker's state. -/
inductive SpeakerOp where
  | tick
  | toggle
  | reset
  | complete (tr : String) (sc : Int) (fb : String) (blob : Nat)
deriving DecidableEq, Repr

/-- Apply one recorder operation to a speaker. -/
def stepSpeaker (s : Speaker) : SpeakerOp → Speaker
  | .tick => speechTick s
  | .toggle => toggleSpeechTimer s
  | .reset => resetSpeechTimer s
  | .complete tr sc fb blob => mergeSpeaker s (completeUpdate tr sc fb blob)

/-- One firing of the dashboard's prep-timer interval: the effect runs
only while `session.phase === 'prep' && session.prepTimeLeft > 0` and
each firing writes `prepTimeLeft: session.prepTimeLeft - 1`. -/
def prepTick (sn : DebateSession) : DebateSession :=
  if sn.phase = Phase.prep ∧ 0 < sn.prepTimeLeft then
    { sn with prepTimeLeft := sn.prepTimeLeft - 1 }
  else sn

/-- `handleSkipPrep`: `onUpdate({ ...session, phase: 'debate', prepTimeLeft: 0 })`. -/
def handleSkipPrep (sn : DebateSession) : DebateSession :=
  { sn with phase := Phase.debate, prepTimeLeft := 0 }

/-- The fallback context returned by `analyzeMotionContext` when the
search call fails. -/
def fallbackContext : MotionContext :=
  { detectedLanguage := "English (Fallback)",
    specificCriteria := ["Analyze based on general logic due to search error."],
    backgroundInfo := "Could not retrieve online context." }

/-- `analyzeMotionContext` from `geminiService`: throws when the API key
is missing, otherwise returns the parsed model response, substituting
the hard-coded fallback context when the network/AI call fails. The
response of the remote model is a parameter (`resp`). -/
def analyzeMotionContext (hasApiKey : Bool) (resp : Except Unit MotionContext) :
    Except String MotionContext :=
  if hasApiKey = false then Except.error "API Key is missing"
  else
    match resp with
    | .ok c => .ok c
    | .error _ => .ok fallbackContext

/-- The guard `!motionInput.trim()` of `handleAnalyzeAndStart`: the
trimmed motion is the empty string exactly when every character of the
motion is whitespace. -/
def motionBlank (motion : String) : Bool :=
  motion.toList.all (fun c => c.isWhitespace)

/-- `handleAnalyzeAndStart` from the dashboard, with the asynchronous
collaborator outcome passed as a parameter (`ctx`): guards on a
non-empty trimmed motion and on connectivity, and on collaborator
success writes topic, truncated title, motion context, next phase and
the prep clock in one update; on collaborator failure no update is
issued. -/
def handleAnalyzeAndStart (sn : DebateSession) (motionInput : String)
    (isOnline skipPrepTime : Bool) (ctx : Except String MotionContext) :
    DebateSession :=
  if motionBlank motionInput = true then sn
  else if isOnline = false then sn
  else
    match ctx with
    | .error _ => sn
    | .ok c =>
        { sn with
          topic := motionInput,
          title := if 30 < motionInput.length then motionInput.take 30 ++ "..." else motionInput,
          motionContext := some c,
          phase := if skipPrepTime then Phase.debate else Phase.prep,
          prepTimeLeft := if skipPrepTime then 0 else PREP_TIME_SECONDS }

/-- One `(team, rank, reasoning)` row of the ranking collaborator's
response (`RankingResult.rankings` items, the `as Team` cast applied). -/
structure RankingEntry where
  team : Team
  rank : Int
  reasoning : String
deriving DecidableEq, Repr

/-- The ranking collaborator's response (`RankingResult` interface). -/
structure RankingResult where
  rankings : List RankingEntry
  overallAdjudication : String
deriving DecidableEq, Repr

/-- The per-team score total computed in `handleFinishDebate`:
`session.speakers.filter(s => s.team === t).reduce((acc, s) => acc + (s.score || 0), 0)`.
(JavaScript `s.score || 0` yields 0 exactly when `score` is absent or 0,
which for integer scores is `Option.getD 0`.) -/
def teamTotal (speakers : List Speaker) (t : Team) : Int :=
  (speakers.filter (fun s => s.team = t)).foldl (fun acc s => acc + s.score.getD 0) 0

/-- The aggregation in `handleFinishDebate`: map each collaborator row
to a `TeamResult` with `totalScore: 0`, then fill every row's
`totalScore` with the team's speaker-score total. -/
def computeFinalRankings (speakers : List Speaker) (rankings : List RankingEntry) :
    List TeamResult :=
  ((rankings.map (fun r =>
      ({ team := r.team, rank := r.rank, totalScore := 0,
         reasoning := r.reasoning } : TeamResult))).map
    (fun tr => { tr with totalScore := teamTotal speakers tr.team }))

/-- `handleFinishDebate` from the dashboard, as the session state left
after the handler returns. `confirmEnd` embeds the `confirm(...)`
answer (consulted only when fewer than 8 speakers are completed) and
`result` the ranking collaborator's outcome. On success the closure's
pre-call session is updated with the mapped rankings; on failure the
pre-call session is restored with `isAdjudicating: false, phase: 'debate'`. -/
def handleFinishDebate (sn : DebateSession) (confirmEnd : Bool)
    (result : Except Unit RankingResult) : DebateSession :=
  let completedCount := (sn.speakers.filter (fun s => s.isCompleted)).length
  if completedCount < 8 ∧ confirmEnd = false then sn
  else
    match result with
    | .ok r =>
        { sn with
          phase := Phase.results,
          isAdjudicating := false,
          finalRankings := some (computeFinalRankings sn.speakers r.rankings),
          overallAdjudication := some r.overallAdjudication }
    | .error _ =>
        { sn with isAdjudicating := false, phase := Phase.debate }

/-- The transient state `handleFinishDebate` publishes before awaiting
the ranking collaborator: `{ ...session, isAdjudicating: true, phase: 'results' }`. -/
def finishDebateOptimistic (sn : DebateSession) : DebateSession :=
  { sn with isAdjudicating := true, phase := Phase.results }

/-- The session-level operations of the dashboard. -/
inductive SessionOp where
  | prepTickOp
  | skipPrepOp
  | analyzeStart (motionInput : String) (isOnline skipPrepTime : Bool)
      (ctx : Except String MotionContext)
  | finishDebate (confirmEnd : Bool) (result : Except Unit RankingResult)
  | updateSpeaker (sid : String) (u : SpeakerUpdate)
deriving Repr

/-- Apply one dashboard operation to a session. -/
def stepSession (sn : DebateSession) : SessionOp → DebateSession
  | .prepTickOp => prepTick sn
  | .skipPrepOp => handleSkipPrep sn
  | .analyzeStart m o k c => handleAnalyzeAndStart sn m o k c
  | .finishDebate c r => handleFinishDebate sn c r
  | .updateSpeaker sid u => handleUpdateSpeaker sn sid u

/-- The default session created on startup in `App.tsx` (its creation
time is a parameter). -/
def initialSession (now : Int) : DebateSession :=
  { id := "default-1", title := "New Debate 1", createdAt := now, topic := "",
    motionContext := none, isPrepTime := true, prepTimeLeft := PREP_TIME_SECONDS,
    phase := Phase.setup, speakers := INITIAL_SPEAKERS, isAdjudicating := false,
    finalRankings := none, overallAdjudication := none }

/-- The session-collection state of `App.tsx`: the session list plus the
id of the active session. -/
structure AppState where
  sessions : List DebateSession
  activeSessionId : String
deriving Repr

/-- `deleteSession` from `App.tsx`: a no-op when only one session
exists; otherwise drops the sessions whose id matches and, when the
deleted session was active, makes `newSessions[0]` active. `none`
models the crash `newSessions[0].id` would be when no session remains. -/
def deleteSession (st : AppState) (sid : String) : Option AppState :=
  if st.sessions.length = 1 then some st
  else
    let newSessions := st.sessions.filter (fun s => s.id ≠ sid)
    if st.activeSessionId = sid then
      match newSessions.head? with
      | some s0 => some { sessions := newSessions, activeSessionId := s0.id }
      | none => none
    else
      some { sessions := newSessions, activeSessionId := st.activeSessionId }

/-- A session in the `debate` phase with the default roster (no speaker
completed yet). -/
def debateBase : DebateSession :=
  { initialSession 0 with phase := Phase.debate }

/-- The scenario scores of the specification's round-trip property, in
roster order: ids 1..8 receive 18, 15, 17, 14, 16, 13, 19, 12. -/
def roundScores : List (String × Int) :=
  [("1", 18), ("2", 15), ("3", 17), ("4", 14), ("5", 16), ("6", 13), ("7", 19), ("8", 12)]

/-- A debate-phase session in which all 8 speakers were completed through
the program's own completion updates, with the round-trip scores. -/
def completedSession : DebateSession :=
  roundScores.foldl
    (fun sn p => handleUpdateSpeaker sn p.1 (completeUpdate "transcript" p.2 "feedback" 0))
    debateBase

/-- The round-trip rank list: OG first, CG second, OO third, CO fourth. -/
def roundRankList : List RankingEntry :=
  [⟨Team.OG, 1, "rOG"⟩, ⟨Team.CG, 2, "rCG"⟩, ⟨Team.OO, 3, "rOO"⟩, ⟨Team.CO, 4, "rCO"⟩]

/-- An invalid rank list: team OO is missing, team OG appears twice, and
rank 1 is duplicated. -/
def badRankList : List RankingEntry :=
  [⟨Team.OG, 1, "a"⟩, ⟨Team.OG, 1, "b"⟩, ⟨Team.CG, 2, "c"⟩, ⟨Team.CO, 3, "d"⟩]

/-- A debate-phase session in which only speaker 5 (Member of Government,
Closing Government) is completed, with score 16; their teammate
(speaker 7) is incomplete. -/
def absentSession : DebateSession :=
  handleUpdateSpeaker debateBase "5" (completeUpdate "transcript" 16 "feedback" 0)

/-- A speaker whose speech timer is running with one second left. -/
def runnerAtOne : Speaker :=
  { mkInitialSpeaker "1" SpeakerRole.PM Team.OG with
    isSpeechTimerRunning := true, speechTimeLeft := 1 }

/-- A speaker whose speech timer is still flagged running with no time left. -/
def stoppedAtZero : Speaker :=
  { mkInitialSpeaker "1" SpeakerRole.PM Team.OG with
    isSpeechTimerRunning := true, speechTimeLeft := 0 }

/-- A session in the `prep` phase with one second of preparation left. -/
def prepAtOne : DebateSession :=
  { initialSession 0 with phase := Phase.prep, prepTimeLeft := 1 }

/-- A second session, as created by the new-debate action. -/
def secondSession : DebateSession :=
  { initialSession 1 with id := "s2", title := "New Debate 2" }

/-- An app state holding two sessions with the first one active. -/
def twoSessionState : AppState :=
  { sessions := [initialSession 0, secondSession], activeSessionId := "default-1" }

end DebateMate
namespace DebateMate

/-! Helper lemmas shared by the claim theorems. -/

/-- On a collaborator error, `handleAnalyzeAndStart` issues no update and
returns the session unchanged. -/
lemma handleAnalyzeAndStart_error (sn : DebateSession) (input : String)
    (online skip : Bool) (e : String) :
    handleAnalyzeAndStart sn input online skip (Except.error e) = sn := by
  unfold handleAnalyzeAndStart
  split
  · rfl
  · split
    · rfl
    · rfl

/-- `handleFinishDebate` never touches the preparation clock. -/
lemma handleFinishDebate_prepTimeLeft (sn : DebateSession) (ce : Bool)
    (r : Except Unit RankingResult) :
    (handleFinishDebate sn ce r).prepTimeLeft = sn.prepTimeLeft := by
  cases r with
  | ok rr =>
    simp only [handleFinishDebate]
    split
    · rfl
    · rfl
  | error e =>
    simp only [handleFinishDebate]
    split
    · rfl
    · rfl

/-- The scan-and-replace map of the update primitive leaves every entry
whose id differs from the target untouched, and the whole list untouched
when no entry matches. -/
lemma update_map_frame (l : List Speaker) (sid : String) (u : SpeakerUpdate) :
    (∀ (j : Nat) (s : Speaker), l[j]? = some s → s.id ≠ sid →
        (l.map (fun s => if s.id = sid then mergeSpeaker s u else s))[j]? = some s) ∧
    ((∀ s ∈ l, s.id ≠ sid) →
        l.map (fun s => if s.id = sid then mergeSpeaker s u else s) = l) := by
  constructor
  · intro j s hj hne
    induction l generalizing j with
    | nil => simp at hj
    | cons a t ih =>
      cases j with
      | zero =>
        simp only [List.getElem?_cons_zero, Option.some.injEq] at hj
        subst hj
        simp [hne]
      | succ k =>
        simp only [List.getElem?_cons_succ] at hj
        simpa only [List.map_cons, List.getElem?_cons_succ] using ih k hj
  · intro hall
    induction l with
    | nil => rfl
    | cons a t ih =>
      simp only [List.map_cons]
      rw [if_neg (hall a (List.mem_cons_self a t))]
      rw [ih (fun s hs => hall s (List.mem_cons_of_mem a hs))]

/-- One recorder operation keeps a speech clock inside `[0, SPEECH_TIME_SECONDS]`. -/
lemma stepSpeaker_timeLeft_bounds (s : Speaker) (op : SpeakerOp)
    (h0 : 0 ≤ s.speechTimeLeft) (h1 : s.speechTimeLeft ≤ SPEECH_TIME_SECONDS) :
    0 ≤ (stepSpeaker s op).speechTimeLeft ∧
      (stepSpeaker s op).speechTimeLeft ≤ SPEECH_TIME_SECONDS := by
  cases op with
  | tick =>
    show 0 ≤ (speechTick s).speechTimeLeft ∧
      (speechTick s).speechTimeLeft ≤ SPEECH_TIME_SECONDS
    unfold speechTick
    split
    · rename_i h
      obtain ⟨-, hpos⟩ := h
      show 0 ≤ s.speechTimeLeft - 1 ∧ s.speechTimeLeft - 1 ≤ SPEECH_TIME_SECONDS
      omega
    · exact ⟨h0, h1⟩
  | toggle => exact ⟨h0, h1⟩
  | reset =>
    exact ⟨(by decide : (0 : Int) ≤ SPEECH_TIME_SECONDS),
           (le_refl SPEECH_TIME_SECONDS)⟩
  | complete tr sc fb b => exact ⟨h0, h1⟩

/-- Any sequence of recorder operations keeps a speech clock inside
`[0, SPEECH_TIME_SECONDS]`. -/
lemma foldl_stepSpeaker_bounds (ops : List SpeakerOp) :
    ∀ (s : Speaker), 0 ≤ s.speechTimeLeft → s.speechTimeLeft ≤ SPEECH_TIME_SECONDS →
      0 ≤ (ops.foldl stepSpeaker s).speechTimeLeft ∧
        (ops.foldl stepSpeaker s).speechTimeLeft ≤ SPEECH_TIME_SECONDS := by
  induction ops with
  | nil => intro s h0 h1; exact ⟨h0, h1⟩
  | cons op t ih =>
    intro s h0 h1
    have h := stepSpeaker_timeLeft_bounds s op h0 h1
    exact ih (stepSpeaker s op) h.1 h.2

/-- One dashboard operation keeps the preparation clock inside
`[0, PREP_TIME_SECONDS]`. -/
lemma stepSession_prepTimeLeft_bounds (sn : DebateSession) (op : SessionOp)
    (h0 : 0 ≤ sn.prepTimeLeft) (h1 : sn.prepTimeLeft ≤ PREP_TIME_SECONDS) :
    0 ≤ (stepSession sn op).prepTimeLeft ∧
      (stepSession sn op).prepTimeLeft ≤ PREP_TIME_SECONDS := by
  cases op with
  | prepTickOp =>
    show 0 ≤ (prepTick sn).prepTimeLeft ∧
      (prepTick sn).prepTimeLeft ≤ PREP_TIME_SECONDS
    unfold prepTick
    split
    · rename_i h
      obtain ⟨-, hpos⟩ := h
      show 0 ≤ sn.prepTimeLeft - 1 ∧ sn.prepTimeLeft - 1 ≤ PREP_TIME_SECONDS
      omega
    · exact ⟨h0, h1⟩
  | skipPrepOp =>
    exact ⟨le_refl 0, (by decide : (0 : Int) ≤ PREP_TIME_SECONDS)⟩
  | analyzeStart m o k c =>
    show 0 ≤ (handleAnalyzeAndStart sn m o k c).prepTimeLeft ∧
      (handleAnalyzeAndStart sn m o k c).prepTimeLeft ≤ PREP_TIME_SECONDS
    unfold handleAnalyzeAndStart
    split
    · exact ⟨h0, h1⟩
    · split
      · exact ⟨h0, h1⟩
      · cases c with
        | error e => exact ⟨h0, h1⟩
        | ok ctx =>
          cases k with
          | true =>
            exact ⟨(by decide : (0 : Int) ≤ 0),
                   (by decide : (0 : Int) ≤ PREP_TIME_SECONDS)⟩
          | false =>
            exact ⟨(by decide : (0 : Int) ≤ PREP_TIME_SECONDS),
                   (le_refl PREP_TIME_SECONDS)⟩
  | finishDebate ce r =>
    show 0 ≤ (handleFinishDebate sn ce r).prepTimeLeft ∧
      (handleFinishDebate sn ce r).prepTimeLeft ≤ PREP_TIME_SECONDS
    rw [handleFinishDebate_prepTimeLeft]
    exact ⟨h0, h1⟩
  | updateSpeaker sid u => exact ⟨h0, h1⟩

/-- Any sequence of dashboard operations keeps the preparation clock
inside `[0, PREP_TIME_SECONDS]`. -/
lemma foldl_stepSession_bounds (ops : List SessionOp) :
    ∀ (sn : DebateSession), 0 ≤ sn.prepTimeLeft → sn.prepTimeLeft ≤ PREP_TIME_SECONDS →
      0 ≤ (ops.foldl stepSession sn).prepTimeLeft ∧
        (ops.foldl stepSession sn).prepTimeLeft ≤ PREP_TIME_SECONDS := by
  induction ops with
  | nil => intro sn h0 h1; exact ⟨h0, h1⟩
  | cons op t ih =>
    intro sn h0 h1
    have h := stepSession_prepTimeLeft_bounds sn op h0 h1
    exact ih (stepSession sn op) h.1 h.2

/-- Filtering out the entries mapped by `f` to `x` drops at most one
entry when the mapped values are pairwise distinct. -/
lemma length_le_filter_ne {α β : Type} [DecidableEq β] (f : α → β) (x : β) :
    ∀ l : List α, (l.map f).Nodup →
      l.length ≤ (l.filter (fun a => f a ≠ x)).length + 1 := by
  intro l
  induction l with
  | nil => simp
  | cons a t ih =>
    intro h
    rw [List.map_cons, List.nodup_cons] at h
    obtain ⟨ha, ht⟩ := h
    by_cases hax : f a = x
    · have hall : ∀ b ∈ t, f b ≠ x := by
        intro b hb hbx
        apply ha
        rw [← hax] at hbx
        rw [← hbx]
        exact List.mem_map_of_mem f hb
      rw [List.filter_cons_of_neg (by simp [hax])]
      rw [List.filter_eq_self.mpr (by intro b hb; simpa using hall b hb)]
      simp
    · rw [List.filter_cons_of_pos (by simp [hax])]
      have := ih ht
      simp only [List.length_cons]
      omega

/-! Claim theorems. -/

/-- Claim C1: the `setup → prep` (or `setup → debate` on skip) transition
happens only after the motion-analysis collaborator succeeds. On a
collaborator failure the session — phase, motion context, everything —
is returned unchanged; a phase change implies the collaborator returned
a context; and the modelled `analyzeMotionContext` fails (throws) exactly
in its missing-API-key branch. -/
theorem analyzeAndStart_failure_atomic :
    (∀ (sn : DebateSession) (input : String) (online skip : Bool) (e : String),
        handleAnalyzeAndStart sn input online skip (Except.error e) = sn) ∧
    (∀ (sn : DebateSession) (input : String) (online skip : Bool)
        (r : Except String MotionContext),
        (handleAnalyzeAndStart sn input online skip r).phase ≠ sn.phase →
          ∃ c, r = Except.ok c) ∧
    (∀ resp : Except Unit MotionContext,
        analyzeMotionContext false resp = Except.error "API Key is missing") := by
  refine ⟨handleAnalyzeAndStart_error, ?_, ?_⟩
  · intro sn input online skip r hne
    cases r with
    | ok c => exact ⟨c, rfl⟩
    | error e => exact absurd (by rw [handleAnalyzeAndStart_error]) hne
  · intro resp
    rfl

/-- Claim C1 witness: a concrete successful start from the default
session does change the phase, discharging the hypothesis of the
phase-change conjunct. -/
theorem analyzeAndStart_failure_atomic_witness :
    ∃ c, (Except.ok fallbackContext : Except String MotionContext) = Except.ok c :=
  analyzeAndStart_failure_atomic.2.1 (initialSession 0) "m" true false
    (Except.ok fallbackContext) (by decide)

/-- Claim C2 counterexample: a rank list that misses team OO, repeats
team OG and duplicates rank 1 is not rejected — the finish handler
stores it verbatim as `finalRankings` (with computed totals) and moves
to the `results` phase, producing TeamResult output with no error. -/
theorem finishDebate_accepts_bad_rank_list :
    (handleFinishDebate completedSession true
        (Except.ok ⟨badRankList, "adj"⟩)).finalRankings =
      some [⟨Team.OG, 1, 35, "a"⟩, ⟨Team.OG, 1, 35, "b"⟩,
            ⟨Team.CG, 2, 35, "c"⟩, ⟨Team.CO, 3, 25, "d"⟩] ∧
    (handleFinishDebate completedSession true
        (Except.ok ⟨badRankList, "adj"⟩)).phase = Phase.results :=
  ⟨by decide, by decide⟩

/-- Claim C2 as amended: the aggregation validates nothing about the
externally supplied rank list. Whatever rows the collaborator returns —
including rows missing a team or duplicating a rank — are mapped
one-for-one into TeamResult entries annotated with the computed team
totals and stored as `finalRankings`. -/
theorem finishDebate_no_rank_validation :
    ∀ (sn : DebateSession) (r : RankingResult),
      (handleFinishDebate sn true (Except.ok r)).finalRankings =
        some (computeFinalRankings sn.speakers r.rankings) ∧
      (handleFinishDebate sn true (Except.ok r)).phase = Phase.results ∧
      computeFinalRankings sn.speakers r.rankings =
        r.rankings.map (fun re =>
          ({ team := re.team, rank := re.rank,
             totalScore := teamTotal sn.speakers re.team,
             reasoning := re.reasoning } : TeamResult)) ∧
      (computeFinalRankings sn.speakers r.rankings).length = r.rankings.length := by
  intro sn r
  refine ⟨?_, ?_, ?_, ?_⟩
  · simp [handleFinishDebate]
  · simp [handleFinishDebate]
  · unfold computeFinalRankings
    rw [List.map_map]
    rfl
  · unfold computeFinalRankings
    simp

/-- Claim C3: when the ranking collaborator fails, the finish handler
leaves a debate-phase session exactly as it was: phase `debate`,
`isAdjudicating` false, `finalRankings` and `overallAdjudication` still
null, and the whole session (speakers included) rolled back atomically. -/
theorem finishDebate_failure_rollback :
    ∀ (sn : DebateSession) (confirmEnd : Bool),
      sn.phase = Phase.debate → sn.isAdjudicating = false →
      sn.finalRankings = none → sn.overallAdjudication = none →
      handleFinishDebate sn confirmEnd (Except.error ()) = sn ∧
      (handleFinishDebate sn confirmEnd (Except.error ())).phase = Phase.debate ∧
      (handleFinishDebate sn confirmEnd (Except.error ())).isAdjudicating = false ∧
      (handleFinishDebate sn confirmEnd (Except.error ())).finalRankings = none ∧
      (handleFinishDebate sn confirmEnd (Except.error ())).overallAdjudication = none := by
  intro sn confirmEnd hph hadj hfr hoa
  have h : handleFinishDebate sn confirmEnd (Except.error ()) = sn := by
    simp only [handleFinishDebate]
    split
    · rfl
    · cases sn
      simp_all
  exact ⟨h, by rw [h, hph], by rw [h, hadj], by rw [h, hfr], by rw [h, hoa]⟩

/-- Claim C3 witness: the rollback applied to a concrete debate-phase
session. -/
theorem finishDebate_failure_rollback_witness :
    handleFinishDebate debateBase true (Except.error ()) = debateBase ∧
    (handleFinishDebate debateBase true (Except.error ())).phase = Phase.debate ∧
    (handleFinishDebate debateBase true (Except.error ())).isAdjudicating = false ∧
    (handleFinishDebate debateBase true (Except.error ())).finalRankings = none ∧
    (handleFinishDebate debateBase true (Except.error ())).overallAdjudication = none :=
  finishDebate_failure_rollback debateBase true rfl rfl rfl rfl

/-- Claim C4 counterexample: a running speech timer with one second left
ticks down to 0 yet keeps `isSpeechTimerRunning = true`, and it stays in
that state — contradicting the claim that the running flag becomes false
once the time reaches 0. -/
theorem speechTimer_running_flag_persists_at_zero :
    (speechTick runnerAtOne).speechTimeLeft = 0 ∧
    (speechTick runnerAtOne).isSpeechTimerRunning = true ∧
    speechTick (speechTick runnerAtOne) = speechTick runnerAtOne :=
  ⟨by decide, by decide, by decide⟩

/-- Claim C4 as amended: once a timer's time reaches 0 no further tick
occurs (a tick at 0 is a no-op, for the speech timers and the prep
timer alike), and a running tick decrements by exactly 1 — but the
running flag is not cleared automatically: ticking never changes
`isSpeechTimerRunning`, which stays true until a reset (or toggle)
clears it. -/
theorem speechTick_noop_at_zero_flag_uncleared :
    (∀ s : Speaker, s.speechTimeLeft = 0 → speechTick s = s) ∧
    (∀ s : Speaker, (speechTick s).isSpeechTimerRunning = s.isSpeechTimerRunning) ∧
    (∀ s : Speaker, s.isSpeechTimerRunning = true → 0 < s.speechTimeLeft →
        (speechTick s).speechTimeLeft = s.speechTimeLeft - 1) ∧
    (∀ sn : DebateSession, sn.prepTimeLeft = 0 → prepTick sn = sn) ∧
    (∀ s : Speaker, (resetSpeechTimer s).isSpeechTimerRunning = false) := by
  refine ⟨?_, ?_, ?_, ?_, ?_⟩
  · intro s h
    unfold speechTick
    rw [if_neg]
    rintro ⟨-, h2⟩
    omega
  · intro s
    unfold speechTick
    split
    · rfl
    · rfl
  · intro s h1 h2
    unfold speechTick
    rw [if_pos ⟨h1, h2⟩]
    rfl
  · intro sn h
    unfold prepTick
    rw [if_neg]
    rintro ⟨-, h2⟩
    omega
  · intro s
    rfl

/-- Claim C4 witness: the no-op-at-zero and exact-decrement conjuncts
applied to concrete speakers. -/
theorem speechTick_noop_at_zero_flag_uncleared_witness :
    speechTick stoppedAtZero = stoppedAtZero ∧
    (speechTick runnerAtOne).speechTimeLeft = runnerAtOne.speechTimeLeft - 1 :=
  ⟨speechTick_noop_at_zero_flag_uncleared.1 stoppedAtZero rfl,
   speechTick_noop_at_zero_flag_uncleared.2.2.1 runnerAtOne rfl (by decide)⟩

/-- Claim C5 counterexample: a prep-phase session whose preparation timer
ticks down to 0 stays in phase `prep` — no `prep → debate` transition is
triggered by the timer reaching 0, contradicting the claimed trigger. -/
theorem prepTimer_zero_no_auto_transition :
    (prepTick prepAtOne).prepTimeLeft = 0 ∧
    (prepTick prepAtOne).phase = Phase.prep ∧
    prepTick (prepTick prepAtOne) = prepTick prepAtOne :=
  ⟨by decide, by decide, by decide⟩

/-- Claim C5 as amended: the only trigger of `prep → debate` is the
explicit skip action — the prep timer never changes the phase. The skip
action forces `prepTimeLeft` to exactly 0 and leaves `isAdjudicating`
unchanged, hence false when it was false. -/
theorem skipPrep_sole_prep_exit :
    (∀ sn : DebateSession, (prepTick sn).phase = sn.phase) ∧
    (∀ sn : DebateSession, (handleSkipPrep sn).phase = Phase.debate ∧
        (handleSkipPrep sn).prepTimeLeft = 0 ∧
        (handleSkipPrep sn).isAdjudicating = sn.isAdjudicating) ∧
    (∀ sn : DebateSession, sn.isAdjudicating = false →
        (handleSkipPrep sn).isAdjudicating = false) := by
  refine ⟨?_, ?_, ?_⟩
  · intro sn
    unfold prepTick
    split
    · rfl
    · rfl
  · intro sn
    exact ⟨rfl, rfl, rfl⟩
  · intro sn h
    exact h

/-- Claim C5 witness: skipping from a concrete prep-phase session keeps
`isAdjudicating` false. -/
theorem skipPrep_sole_prep_exit_witness :
    (handleSkipPrep prepAtOne).isAdjudicating = false :=
  skipPrep_sole_prep_exit.2.2 prepAtOne rfl

/-- Claim C6: team totals are the sum of the team's two speakers' scores.
With scores 18,15,17,14,16,13,19,12 in roster order the stored results
are OG 35, CG 35, OO 29, CO 25 with the supplied ranks and reasoning
preserved verbatim; a completed speaker scoring `v` whose teammate is
incomplete yields a team total of exactly `v` (the absent speaker
contributes 0, is not omitted and is not averaged), and the score-16
absent-speaker scenario aggregates without error. -/
theorem finishDebate_team_totals :
    (handleFinishDebate completedSession true
        (Except.ok ⟨roundRankList, "adj"⟩)).finalRankings =
      some [⟨Team.OG, 1, 35, "rOG"⟩, ⟨Team.CG, 2, 35, "rCG"⟩,
            ⟨Team.OO, 3, 29, "rOO"⟩, ⟨Team.CO, 4, 25, "rCO"⟩] ∧
    (∀ (v : Int) (tr fb : String) (blob : Nat),
        teamTotal ((handleUpdateSpeaker debateBase "5"
          (completeUpdate tr v fb blob)).speakers) Team.CG = v) ∧
    teamTotal absentSession.speakers Team.CG = 16 ∧
    computeFinalRankings absentSession.speakers roundRankList =
      [⟨Team.OG, 1, 0, "rOG"⟩, ⟨Team.CG, 2, 16, "rCG"⟩,
       ⟨Team.OO, 3, 0, "rOO"⟩, ⟨Team.CO, 4, 0, "rCO"⟩] := by
  refine ⟨by decide, ?_, by decide, by decide⟩
  intro v tr fb blob
  simp [handleUpdateSpeaker, debateBase, initialSession, INITIAL_SPEAKERS,
        mkInitialSpeaker, completeUpdate, mergeSpeaker, teamTotal]

/-- Claim C7: the update primitive is a frame-preserving point update —
every speaker whose id differs from the target keeps its exact entry at
its exact position, and when no speaker matches the id the whole
speakers array is unchanged. -/
theorem handleUpdateSpeaker_frame :
    ∀ (sn : DebateSession) (sid : String) (u : SpeakerUpdate),
      (∀ (j : Nat) (s : Speaker), sn.speakers[j]? = some s → s.id ≠ sid →
          (handleUpdateSpeaker sn sid u).speakers[j]? = some s) ∧
      ((∀ s ∈ sn.speakers, s.id ≠ sid) →
          (handleUpdateSpeaker sn sid u).speakers = sn.speakers) := by
  intro sn sid u
  exact update_map_frame sn.speakers sid u

/-- Claim C7 witness: updating the unknown id 9 in the default session
leaves speaker 1 and the whole array unchanged. -/
theorem handleUpdateSpeaker_frame_witness :
    (handleUpdateSpeaker (initialSession 0) "9" resetUpdate).speakers[0]? =
      some (mkInitialSpeaker "1" SpeakerRole.PM Team.OG) ∧
    (handleUpdateSpeaker (initialSession 0) "9" resetUpdate).speakers =
      (initialSession 0).speakers :=
  ⟨(handleUpdateSpeaker_frame (initialSession 0) "9" resetUpdate).1 0
      (mkInitialSpeaker "1" SpeakerRole.PM Team.OG) (by decide) (by decide),
   (handleUpdateSpeaker_frame (initialSession 0) "9" resetUpdate).2 (by decide)⟩

/-- Claim C8: every update the program routes through the update
primitive — timer ticks, timer toggles, timer resets and
evaluation-completion results — preserves each speaker's id, role and
team, so the role/team assignment fixed at creation is immutable. -/
theorem updatePrimitive_preserves_identity :
    ∀ (sn : DebateSession) (sid : String) (u : SpeakerUpdate),
      ProgramSpeakerUpdate u →
      ∀ (j : Nat) (s : Speaker), sn.speakers[j]? = some s →
        ∃ s', (handleUpdateSpeaker sn sid u).speakers[j]? = some s' ∧
          s'.id = s.id ∧ s'.role = s.role ∧ s'.team = s.team := by
  intro sn sid u hu j s hj
  refine ⟨if s.id = sid then mergeSpeaker s u else s, ?_, ?_, ?_, ?_⟩
  · show (sn.speakers.map (fun s => if s.id = sid then mergeSpeaker s u else s))[j]? = _
    rw [List.getElem?_map, hj]
    rfl
  · split
    · rcases hu with ⟨t, rfl⟩ | ⟨t, rfl⟩ | rfl | ⟨tr, sc, fb, b, rfl⟩ <;> rfl
    · rfl
  · split
    · rcases hu with ⟨t, rfl⟩ | ⟨t, rfl⟩ | rfl | ⟨tr, sc, fb, b, rfl⟩ <;> rfl
    · rfl
  · split
    · rcases hu with ⟨t, rfl⟩ | ⟨t, rfl⟩ | rfl | ⟨tr, sc, fb, b, rfl⟩ <;> rfl
    · rfl

/-- Claim C8 witness: a concrete reset update on speaker 1 keeps that
speaker's id, role and team. -/
theorem updatePrimitive_preserves_identity_witness :
    ∃ s', (handleUpdateSpeaker (initialSession 0) "1" resetUpdate).speakers[0]? = some s' ∧
      s'.id = (mkInitialSpeaker "1" SpeakerRole.PM Team.OG).id ∧
      s'.role = (mkInitialSpeaker "1" SpeakerRole.PM Team.OG).role ∧
      s'.team = (mkInitialSpeaker "1" SpeakerRole.PM Team.OG).team :=
  updatePrimitive_preserves_identity (initialSession 0) "1" resetUpdate
    (Or.inr (Or.inr (Or.inl rfl))) 0 (mkInitialSpeaker "1" SpeakerRole.PM Team.OG)
    (by decide)

/-- Claim C9: every timer's time-left stays in `[0, initial]` under any
sequence of operations; a running speech tick decrements by exactly 1
and a tick at 0 does not decrement, and likewise for the per-session
preparation timer. -/
theorem timer_timeLeft_bounds :
    (∀ (ops : List SpeakerOp) (s : Speaker),
        0 ≤ s.speechTimeLeft → s.speechTimeLeft ≤ SPEECH_TIME_SECONDS →
        0 ≤ (ops.foldl stepSpeaker s).speechTimeLeft ∧
          (ops.foldl stepSpeaker s).speechTimeLeft ≤ SPEECH_TIME_SECONDS) ∧
    (∀ s : Speaker, s.isSpeechTimerRunning = true → 0 < s.speechTimeLeft →
        (speechTick s).speechTimeLeft = s.speechTimeLeft - 1) ∧
    (∀ s : Speaker, s.speechTimeLeft = 0 → (speechTick s).speechTimeLeft = 0) ∧
    (∀ (ops : List SessionOp) (sn : DebateSession),
        0 ≤ sn.prepTimeLeft → sn.prepTimeLeft ≤ PREP_TIME_SECONDS →
        0 ≤ (ops.foldl stepSession sn).prepTimeLeft ∧
          (ops.foldl stepSession sn).prepTimeLeft ≤ PREP_TIME_SECONDS) ∧
    (∀ sn : DebateSession, sn.phase = Phase.prep → 0 < sn.prepTimeLeft →
        (prepTick sn).prepTimeLeft = sn.prepTimeLeft - 1) ∧
    (∀ sn : DebateSession, sn.prepTimeLeft = 0 → (prepTick sn).prepTimeLeft = 0) := by
  refine ⟨foldl_stepSpeaker_bounds, ?_, ?_, foldl_stepSession_bounds, ?_, ?_⟩
  · intro s hrun hpos
    unfold speechTick
    rw [if_pos ⟨hrun, hpos⟩]
    rfl
  · intro s hz
    unfold speechTick
    rw [if_neg]
    · exact hz
    · rintro ⟨-, hpos⟩
      omega
  · intro sn hph hpos
    unfold prepTick
    rw [if_pos ⟨hph, hpos⟩]
  · intro sn hz
    unfold prepTick
    rw [if_neg]
    · exact hz
    · rintro ⟨-, hpos⟩
      omega

/-- Claim C9 witness: the bounds applied to one tick of a concrete speech
timer and one tick of a concrete preparation timer. -/
theorem timer_timeLeft_bounds_witness :
    (0 ≤ ([SpeakerOp.tick].foldl stepSpeaker runnerAtOne).speechTimeLeft ∧
      ([SpeakerOp.tick].foldl stepSpeaker runnerAtOne).speechTimeLeft ≤
        SPEECH_TIME_SECONDS) ∧
    (0 ≤ ([SessionOp.prepTickOp].foldl stepSession prepAtOne).prepTimeLeft ∧
      ([SessionOp.prepTickOp].foldl stepSession prepAtOne).prepTimeLeft ≤
        PREP_TIME_SECONDS) :=
  ⟨timer_timeLeft_bounds.1 [SpeakerOp.tick] runnerAtOne (by decide) (by decide),
   timer_timeLeft_bounds.2.2.2.1 [SessionOp.prepTickOp] prepAtOne (by decide) (by decide)⟩

/-- Claim C10: the session collection never becomes empty — deleting when
exactly one session exists is a no-op; otherwise (for the distinct ids
the app creates) exactly the sessions with the given id are removed, a
nonempty list remains, and if the deleted session was active the first
remaining session becomes active, else the active selection is kept. -/
theorem deleteSession_nonempty :
    (∀ (st : AppState) (sid : String), st.sessions.length = 1 →
        deleteSession st sid = some st) ∧
    (∀ (st : AppState) (sid : String),
        (st.sessions.map (fun s => s.id)).Nodup → 2 ≤ st.sessions.length →
        ∃ st', deleteSession st sid = some st' ∧
          st'.sessions = st.sessions.filter (fun s => s.id ≠ sid) ∧
          st'.sessions ≠ [] ∧
          (∀ s, s ∈ st'.sessions ↔ s ∈ st.sessions ∧ s.id ≠ sid) ∧
          (st.activeSessionId = sid →
              ∃ s0, st'.sessions.head? = some s0 ∧ st'.activeSessionId = s0.id) ∧
          (st.activeSessionId ≠ sid → st'.activeSessionId = st.activeSessionId)) := by
  constructor
  · intro st sid h
    simp only [deleteSession]
    rw [if_pos h]
  · intro st sid hnd hlen
    have hfne : st.sessions.filter (fun s => s.id ≠ sid) ≠ [] := by
      have hle := length_le_filter_ne (fun s => s.id) sid st.sessions hnd
      intro hempty
      rw [hempty] at hle
      simp at hle
      omega
    have hmem : ∀ s : DebateSession,
        s ∈ st.sessions.filter (fun t => t.id ≠ sid) ↔ s ∈ st.sessions ∧ s.id ≠ sid := by
      intro s
      rw [List.mem_filter]
      simp
    simp only [deleteSession]
    rw [if_neg (by omega)]
    by_cases hact : st.activeSessionId = sid
    · rw [if_pos hact]
      obtain ⟨s0, t0, h0⟩ : ∃ s0 t0,
          st.sessions.filter (fun s => s.id ≠ sid) = s0 :: t0 := by
        cases hc : st.sessions.filter (fun s => s.id ≠ sid) with
        | nil => exact absurd hc hfne
        | cons a b => exact ⟨a, b, rfl⟩
      rw [h0]
      simp only [List.head?_cons]
      refine ⟨⟨s0 :: t0, s0.id⟩, rfl, rfl, List.cons_ne_nil s0 t0, ?_, ?_, ?_⟩
      · intro s
        show s ∈ s0 :: t0 ↔ _
        rw [← h0]
        exact hmem s
      · intro _
        exact ⟨s0, rfl, rfl⟩
      · intro hne
        exact absurd hact hne
    · rw [if_neg hact]
      refine ⟨⟨st.sessions.filter (fun s => s.id ≠ sid), st.activeSessionId⟩,
        rfl, rfl, hfne, hmem, ?_, fun _ => rfl⟩
      intro heq
      exact absurd heq hact

/-- Claim C10 witness: deleting the active first session from a concrete
two-session state. -/
theorem deleteSession_nonempty_witness :
    ∃ st', deleteSession twoSessionState "default-1" = some st' ∧
      st'.sessions = twoSessionState.sessions.filter (fun s => s.id ≠ "default-1") ∧
      st'.sessions ≠ [] ∧
      (∀ s, s ∈ st'.sessions ↔ s ∈ twoSessionState.sessions ∧ s.id ≠ "default-1") ∧
      (twoSessionState.activeSessionId = "default-1" →
          ∃ s0, st'.sessions.head? = some s0 ∧ st'.activeSessionId = s0.id) ∧
      (twoSessionState.activeSessionId ≠ "default-1" →
          st'.activeSessionId = twoSessionState.activeSessionId) :=
  deleteSession_nonempty.2 twoSessionState "default-1" (by decide) (by decide)

end DebateMate
